import Mathlib

/-!
Verification of the watch-normalize-publish pipeline of pytroll-watchers,
shallowly embedded from `src/pytroll_watchers/minio_notification_watcher.py`.
Dictionaries are modelled as association lists with Python `dict` semantics
(unique keys in practice; `dictSet` replaces the first occurrence or appends).
The record batches delivered by the minio transport are modelled by the
`RawNotification` structure below; the fields this core never reads
(event name, times, ETags, request ids, user agents) are carried as plain
string/number fields so that noninterference can be stated about them.
A missing required field (`item["s3"]["bucket"]["name"]` or
`item["s3"]["object"]["key"]` absent) is modelled by `Option.none`; in
Python such an access raises `KeyError`, which `file_generator` does not
catch, so it is modelled as the stream terminating with
`StreamError.keyError`.
-/

/-- A string-keyed dictionary with string values, as an association list. -/
abbrev Dict := List (String × String)

/-- Python `d[k]`/`d.get(k)`: the value at the first occurrence of `k`. -/
def dictGet : Dict → String → Option String
  | [], _ => none
  | (k, v) :: d, key => if k = key then some v else dictGet d key

/-- Python `d[k] = v`: replace the first binding of `k`, else append. -/
def dictSet : Dict → String → String → Dict
  | [], k, v => [(k, v)]
  | (k', v') :: d, k, v =>
    if k' = k then (k, v) :: d else (k', v') :: dictSet d k v

/-- Python `d.update(other)`: set every binding of `other` in order. -/
def dictUpdate (d : Dict) : Dict → Dict
  | [] => d
  | (k, v) :: rest => dictUpdate (dictSet d k v) rest

/-- The keys of a dictionary, in order. -/
def dictKeys (d : Dict) : List String := d.map Prod.fst

/-- Modelled from the spec: a `MetadataPattern` (a trollsift template from
`pytroll_watchers.publisher`, whose source is not part of this tree) is
represented abstractly by its anchored matching function: `matchKey key`
returns the extracted metadata mapping on a full match and `none` on
`NoMatch`. -/
structure Pattern where
  matchKey : String → Option Dict

/-- The exception `parse_metadata` raises on a non-matching key. -/
inductive ParseError where
  | valueError
deriving DecidableEq

/-- Modelled from the spec: `parse_metadata` from
`pytroll_watchers.publisher` (not under this tree). An absent/empty
pattern always returns an empty `ExtractedMetadata` (every key accepted,
no fields populated); a present pattern returns the extracted mapping on
a match and raises `ValueError` (here `Except.error`) on `NoMatch`. -/
def parse_metadata (pattern : Option Pattern) (key : String) :
    Except ParseError Dict :=
  match pattern with
  | none => Except.ok []
  | some p =>
    match p.matchKey key with
    | some md => Except.ok md
    | none => Except.error ParseError.valueError

/-- `item["s3"]["bucket"]`: the bucket description inside a record entry.
`name` is the required field read by `file_generator` (missing = `none`,
a Python `KeyError` on access); `arn` stands for the unread fields. -/
structure BucketInfo where
  name : Option String
  arn : String
deriving DecidableEq

/-- `item["s3"]["object"]`: the object description inside a record entry.
`key` is the required field read by `file_generator` (missing = `none`);
the rest are unread passthrough fields. -/
structure ObjectInfo where
  key : Option String
  eTag : String
  size : Nat
  contentType : String
deriving DecidableEq

/-- `item["s3"]`: the nested object-storage description. -/
structure S3Info where
  bucket : BucketInfo
  object : ObjectInfo
  schemaVersion : String
deriving DecidableEq

/-- One entry of a `RawNotification` batch (one element of
`record["Records"]`). Only `s3.bucket.name` and `s3.object.key` are read
by the normalizer; the other fields are opaque passthrough. -/
structure RecordItem where
  eventName : String
  eventTime : String
  requestId : String
  userAgent : String
  s3 : S3Info
deriving DecidableEq

/-- One raw notification batch: `record["Records"]` is a list of entries. -/
structure RawNotification where
  Records : List RecordItem
deriving DecidableEq

/-- The result of `UPath(f"s3://{bucket}/{key}", **storage_options)`:
the uri string together with the storage options it carries. -/
structure ObjectLocation where
  uri : String
  storage_options : Dict
deriving DecidableEq

/-- The uncaught Python exception that can escape `file_generator`'s loop:
`KeyError` from accessing a missing bucket name or object key. -/
inductive StreamError where
  | keyError
deriving DecidableEq

/-- `storage_options if storage_options is not None else {}` in
`file_generator`. -/
def normStorageOptions : Option Dict → Dict
  | none => []
  | some so => so

/-- The inner `for item in record["Records"]` loop of `file_generator`:
read `item["s3"]["bucket"]["name"]` and `item["s3"]["object"]["key"]`
(a missing one raises `KeyError`, terminating the stream), call
`parse_metadata` under `try/except ValueError: continue`, and on success
yield `(UPath(f"s3://{bucket}/{key}", **storage_options), metadata)`.
Returns the yielded events together with the terminating error, if any. -/
def processItems (pattern : Option Pattern) (so : Dict) :
    List RecordItem → List (ObjectLocation × Dict) × Option StreamError
  | [] => ([], none)
  | item :: rest =>
    match item.s3.bucket.name with
    | none => ([], some StreamError.keyError)
    | some b =>
      match item.s3.object.key with
      | none => ([], some StreamError.keyError)
      | some k =>
        match parse_metadata pattern k with
        | Except.error _ => processItems pattern so rest
        | Except.ok md =>
          let tail := processItems pattern so rest
          (({ uri := "s3://" ++ b ++ "/" ++ k, storage_options := so }, md)
             :: tail.1, tail.2)

/-- The outer `for record in _record_generator(...)` loop of
`file_generator`, consuming a (finite view of the) record stream. An
uncaught error inside a batch terminates the whole stream. -/
def processRecords (pattern : Option Pattern) (so : Dict) :
    List RawNotification → List (ObjectLocation × Dict) × Option StreamError
  | [] => ([], none)
  | r :: rs =>
    let batch := processItems pattern so r.Records
    match batch.2 with
    | some e => (batch.1, some e)
    | none =>
      let rest := processRecords pattern so rs
      (batch.1 ++ rest.1, rest.2)

/-- `file_generator(endpoint_url, bucket_name, file_pattern, storage_options)`
from `minio_notification_watcher.py`, applied to the record stream
produced by `_record_generator` (passed here explicitly, as the test
doubles do). Returns the yielded `(UPath, metadata)` pairs in order and
the error terminating the stream, if any. `endpoint_url` and
`bucket_name` parameterize only the transport client. -/
def file_generator (endpoint_url bucket_name : String)
    (file_pattern : Option Pattern) (storage_options : Option Dict)
    (stream : List RawNotification) :
    List (ObjectLocation × Dict) × Option StreamError :=
  let _ := endpoint_url
  let _ := bucket_name
  let so := normStorageOptions storage_options
  processRecords file_pattern so stream

/-- The minio credential providers `_record_generator` can construct. -/
inductive Credentials where
  | awsConfigProvider (profile : String)
deriving DecidableEq

/-- The `Minio(endpoint_url, credentials=credentials)` client value
constructed by `_record_generator`. -/
structure MinioClient where
  endpoint : String
  credentials : Option Credentials
deriving DecidableEq

/-- The credential selection of `_record_generator`:
`AWSConfigProvider(profile=storage_options["profile"])` if `"profile" in
storage_options`, else `None`. -/
def record_generator_client (endpoint_url : String) (storage_options : Dict) :
    MinioClient :=
  { endpoint := endpoint_url,
    credentials :=
      if (dictKeys storage_options).contains "profile" then
        (dictGet storage_options "profile").map Credentials.awsConfigProvider
      else none }

/-- The arguments of the `client.listen_bucket_notification` call in
`_record_generator`. -/
structure ListenCall where
  bucket : String
  events : List String
deriving DecidableEq

/-- The subscription `_record_generator` opens:
`listen_bucket_notification(bucket_name, events=["s3:ObjectCreated:*"])`. -/
def record_generator_listen (bucket_name : String) : ListenCall :=
  { bucket := bucket_name, events := ["s3:ObjectCreated:*"] }

/-- The `for event in events: yield event` loop of `_record_generator`,
on a finite view of the subscription. -/
def record_generator_yield : List RawNotification → List RawNotification
  | [] => []
  | e :: es => e :: record_generator_yield es

/-- An entry has both required fields (bucket name and object key). -/
def wellFormedItem (item : RecordItem) : Bool :=
  item.s3.bucket.name.isSome && item.s3.object.key.isSome

/-- Every entry of every batch of the stream is well formed. -/
abbrev wellFormedRecords (records : List RawNotification) : Prop :=
  ∀ r ∈ records, ∀ i ∈ r.Records, wellFormedItem i = true

/-- The object key of an entry (defaulting for a malformed one). -/
def itemKey (item : RecordItem) : String := item.s3.object.key.getD ""

/-- The bucket name of an entry (defaulting for a malformed one). -/
def itemBucket (item : RecordItem) : String := item.s3.bucket.name.getD ""

/-- The entry's key matches the configured pattern (no `ValueError`). -/
def entryMatches (pattern : Option Pattern) (item : RecordItem) : Bool :=
  match parse_metadata pattern (itemKey item) with
  | Except.ok _ => true
  | Except.error _ => false

/-- The normalized event built from a (well-formed, matching) entry. -/
def entryEvent (pattern : Option Pattern) (so : Dict) (item : RecordItem) :
    ObjectLocation × Dict :=
  ({ uri := "s3://" ++ itemBucket item ++ "/" ++ itemKey item,
     storage_options := so },
   match parse_metadata pattern (itemKey item) with
   | Except.ok md => md
   | Except.error _ => [])

/-- All entries of a batch stream, in order of arrival. -/
def allEntries (records : List RawNotification) : List RecordItem :=
  (records.map RawNotification.Records).flatten

/-- Modelled from the spec: the resolved-filesystem descriptor attached to
every outbound message (the `"fs"` field; in the reference system a
serialized fsspec filesystem description). Its content is opaque to this
core. -/
def fsDescriptor (loc : ObjectLocation) : String :=
  "resolved-filesystem-of s3 " ++ loc.uri

/-- Modelled from the spec: the data mapping of an `OutboundMessage`,
merged in precedence order lowest to highest: the static
`message_config` data, the extracted metadata, then the resolved object
address (`"url"`) and filesystem descriptor (`"fs"`), populated last. -/
def buildMessageData (staticData md : Dict) (loc : ObjectLocation) : Dict :=
  dictSet (dictSet (dictUpdate staticData md) "url" loc.uri) "fs"
    (fsDescriptor loc)

/-- The static message configuration handed to the publisher: subject,
type tag and static data fields. -/
structure MessageConfig where
  subject : String
  atype : String
  data : Dict
deriving DecidableEq

/-- One outbound message emitted to the pub/sub sink. -/
structure OutboundMessage where
  subject : String
  atype : String
  data : Dict
deriving DecidableEq

/-- Modelled from the spec: `file_publisher_from_generator` from
`pytroll_watchers.publisher` (not under this tree). It drains the
normalized event sequence and, for each event, emits one message whose
subject and type come from the message configuration unmodified and
whose data is the merge of `buildMessageData`, preserving input order
with no batching. -/
def file_publisher_from_generator (events : List (ObjectLocation × Dict))
    (message_config : MessageConfig) : List OutboundMessage :=
  events.map (fun ev =>
    { subject := message_config.subject, atype := message_config.atype,
      data := buildMessageData message_config.data ev.2 ev.1 })

/-- `file_publisher` from `minio_notification_watcher.py`: run
`file_generator` on the configured source and hand the resulting events
to the publisher. The emitted messages (in order) are returned together
with the error terminating the stream, if any. -/
def file_publisher (endpoint_url bucket_name : String)
    (file_pattern : Option Pattern) (storage_options : Option Dict)
    (message_config : MessageConfig) (stream : List RawNotification) :
    List OutboundMessage × Option StreamError :=
  let run := file_generator endpoint_url bucket_name file_pattern
    storage_options stream
  (file_publisher_from_generator run.1 message_config, run.2)

/-- Two record entries that agree on the only fields this core reads:
the bucket name and the object key. -/
def itemAgrees (a b : RecordItem) : Prop :=
  a.s3.bucket.name = b.s3.bucket.name ∧ a.s3.object.key = b.s3.object.key

/-- The user-agent string shared by all entries of the reference fixture. -/
def fixtureUserAgent : String :=
  "aiobotocore/2.12.1 md/Botocore#1.34.51 ua/2.0 " ++
  "os/linux#4.18.0-513.18.1.el8_9.x86_64 md/arch#x86_64 " ++
  "lang/python#3.11.8 md/pyimpl#CPython cfg/retry-mode#legacy " ++
  "botocore/1.34.51"

/-- A well-formed entry of the `viirs-data` bucket, as in the reference
fixture of `test_bucket_notification_watcher.py`. -/
def fixtureItem (ename etime rid etag : String) (size : Nat)
    (key : String) : RecordItem :=
  { eventName := ename, eventTime := etime, requestId := rid,
    userAgent := fixtureUserAgent,
    s3 := { bucket := { name := some "viirs-data",
                        arn := "arn:aws:s3:::viirs-data" },
            object := { key := some key, eTag := etag, size := size,
                        contentType := "application/x-hdf5" },
            schemaVersion := "1.0" } }

/-- An entry whose object description is missing the required `key`
field (`item["s3"]["object"]["key"]` raises `KeyError`). -/
def noKeyItem : RecordItem :=
  { eventName := "s3:ObjectCreated:Put",
    eventTime := "2024-04-08T10:24:22.544Z", requestId := "req-bad",
    userAgent := fixtureUserAgent,
    s3 := { bucket := { name := some "viirs-data",
                        arn := "arn:aws:s3:::viirs-data" },
            object := { key := none, eTag := "etag-bad", size := 7,
                        contentType := "application/x-hdf5" },
            schemaVersion := "1.0" } }

/-- A concrete pattern matching exactly the key `"match/me.h5"`. -/
def p0 : Pattern :=
  { matchKey := fun key =>
      if key = "match/me.h5" then some [("platform", "npp")] else none }

/-- A well-formed matching sample entry. -/
def sampleMatchItem : RecordItem :=
  fixtureItem "s3:ObjectCreated:Put" "2024-04-08T10:24:22.544Z" "req-1"
    "etag-1" 11 "match/me.h5"

/-- A well-formed entry whose key does not match `p0`. -/
def sampleNoMatchItem : RecordItem :=
  fixtureItem "s3:ObjectCreated:Put" "2024-04-08T10:24:22.666Z" "req-2"
    "etag-2" 22 "other/file.txt"

/-- The same discovered object as `sampleMatchItem` but with every
opaque field (event name, time, request id, ETag, size) different. -/
def sampleMatchItemVariant : RecordItem :=
  { eventName := "s3:ObjectCreated:CompleteMultipartUpload",
    eventTime := "2024-04-08T11:59:59.999Z", requestId := "req-other",
    userAgent := "curl/8.0",
    s3 := { bucket := { name := some "viirs-data", arn := "another-arn" },
            object := { key := some "match/me.h5", eTag := "etag-other",
                        size := 99999, contentType := "text/plain" },
            schemaVersion := "2.0" } }

/-- The two-batch sample stream used by witnesses: one matching entry,
then a batch with one non-matching and one matching entry. -/
def wStream : List RawNotification :=
  [{ Records := [sampleMatchItem] },
   { Records := [sampleNoMatchItem, sampleMatchItem] }]

/-- The 14 object keys of the reference fixture, in arrival order. -/
def fixtureKeys : List String :=
  ["sdr/SVM13_npp_d20240408_t1006227_e1007469_b64498_c20240408102334392250_cspp_dev.h5",
   "sdr/SVM14_npp_d20240408_t1006227_e1007469_b64498_c20240408102334431798_cspp_dev.h5",
   "sdr/SVM15_npp_d20240408_t1006227_e1007469_b64498_c20240408102334471520_cspp_dev.h5",
   "sdr/SVM16_npp_d20240408_t1006227_e1007469_b64498_c20240408102334509150_cspp_dev.h5",
   "sdr/GIMGO_npp_d20240408_t1006227_e1007469_b64498_c20240408102307309287_cspp_dev.h5",
   "sdr/GITCO_npp_d20240408_t1006227_e1007469_b64498_c20240408102307123064_cspp_dev.h5",
   "sdr/SVI01_npp_d20240408_t1006227_e1007469_b64498_c20240408102333369886_cspp_dev.h5",
   "sdr/SVI02_npp_d20240408_t1006227_e1007469_b64498_c20240408102333521003_cspp_dev.h5",
   "sdr/SVI03_npp_d20240408_t1006227_e1007469_b64498_c20240408102333616593_cspp_dev.h5",
   "sdr/SVI04_npp_d20240408_t1006227_e1007469_b64498_c20240408102333718056_cspp_dev.h5",
   "sdr/SVI05_npp_d20240408_t1006227_e1007469_b64498_c20240408102333815418_cspp_dev.h5",
   "sdr/GDNBO_npp_d20240408_t1006227_e1007469_b64498_c20240408102306939475_cspp_dev.h5",
   "sdr/SVDNB_npp_d20240408_t1006227_e1007469_b64498_c20240408102332971066_cspp_dev.h5",
   "sdr/IVCDB_npp_d20240408_t1006227_e1007469_b64498_c20240408102333190566_cspp_dev.h5"]

/-- The 14 one-entry `RawNotification` batches of the reference fixture
in `test_bucket_notification_watcher.py`, in arrival order. -/
def fixtureRecords : List RawNotification :=
  [{ Records := [fixtureItem "s3:ObjectCreated:Put"
      "2024-04-08T10:24:22.544Z" "17C4470908962A15"
      "9f6fbbf9e2b44509afa922b8d9884682" 22183568 (fixtureKeys.getD 0 "")] },
   { Records := [fixtureItem "s3:ObjectCreated:Put"
      "2024-04-08T10:24:22.666Z" "17C4470912FB48E9"
      "f92d4f4c1b33b8397fc710aed80ab134" 12357960 (fixtureKeys.getD 1 "")] },
   { Records := [fixtureItem "s3:ObjectCreated:Put"
      "2024-04-08T10:24:22.790Z" "17C447091A7B932E"
      "9ffffd85b277704d0b85ecc22d8337ce" 12357960 (fixtureKeys.getD 2 "")] },
   { Records := [fixtureItem "s3:ObjectCreated:Put"
      "2024-04-08T10:24:22.925Z" "17C4470921D01846"
      "a7cea3e72dea4845905922a851fac53c" 12357960 (fixtureKeys.getD 3 "")] },
   { Records := [fixtureItem "s3:ObjectCreated:CompleteMultipartUpload"
      "2024-04-08T10:24:25.377Z" "17C44709B7B42BA6"
      "6accbb0d6937313fb06b5c09a88b0045-7" 324490832
      (fixtureKeys.getD 4 "")] },
   { Records := [fixtureItem "s3:ObjectCreated:CompleteMultipartUpload"
      "2024-04-08T10:24:27.829Z" "17C4470A4A03BE3D"
      "36a554f5a2f344ed5f3ffb7826f0a17a-7" 324490848
      (fixtureKeys.getD 5 "")] },
   { Records := [fixtureItem "s3:ObjectCreated:Put"
      "2024-04-08T10:24:28.227Z" "17C4470A55A65AC6"
      "c5804716bfa4431e35957308d0266b37" 49222736 (fixtureKeys.getD 6 "")] },
   { Records := [fixtureItem "s3:ObjectCreated:Put"
      "2024-04-08T10:24:28.605Z" "17C4470A6C179370"
      "6e0465a1a67e401d08312d511e14b797" 49222736 (fixtureKeys.getD 7 "")] },
   { Records := [fixtureItem "s3:ObjectCreated:Put"
      "2024-04-08T10:24:28.998Z" "17C4470A8318051B"
      "f7a1a9089841e810a4249ee43ac7d344" 49222736 (fixtureKeys.getD 8 "")] },
   { Records := [fixtureItem "s3:ObjectCreated:Put"
      "2024-04-08T10:24:29.475Z" "17C4470A99695857"
      "ade56421a7d2b40a27ac32312d496c99" 49222736 (fixtureKeys.getD 9 "")] },
   { Records := [fixtureItem "s3:ObjectCreated:Put"
      "2024-04-08T10:24:29.881Z" "17C4470AB6F25E72"
      "70c7e8e51601a450c5cd73b3d6e2d57e" 49222736
      (fixtureKeys.getD 10 "")] },
   { Records := [fixtureItem "s3:ObjectCreated:CompleteMultipartUpload"
      "2024-04-08T10:24:31.138Z" "17C4470B0F539914"
      "8cfd404cd0a9fde9088ebb8472c0eb7d-4" 168652400
      (fixtureKeys.getD 11 "")] },
   { Records := [fixtureItem "s3:ObjectCreated:Put"
      "2024-04-08T10:24:31.293Z" "17C4470B143343A8"
      "45a903f620151c6e84b3dcabc7662692" 15662132
      (fixtureKeys.getD 12 "")] },
   { Records := [fixtureItem "s3:ObjectCreated:CompleteMultipartUpload"
      "2024-04-08T10:24:32.244Z" "17C4470B5138A602"
      "fea57bce523e03c1cc38d864beb8a3d5-3" 123520808
      (fixtureKeys.getD 13 "")] }]

/-- The message configuration of the reference publish scenario. -/
def fixtureMessageConfig : MessageConfig :=
  { subject := "/segment/viirs/l1b/", atype := "file",
    data := [("sensor", "viirs")] }

theorem processItems_of_wellFormed (pattern : Option Pattern) (so : Dict)
    (items : List RecordItem) (h : ∀ i ∈ items, wellFormedItem i = true) :
    processItems pattern so items
      = ((items.filter (entryMatches pattern)).map (entryEvent pattern so),
         none) := by
  induction items with
  | nil => rfl
  | cons item rest ih =>
    have hitem := h item (List.mem_cons_self _ _)
    have hrest : ∀ i ∈ rest, wellFormedItem i = true :=
      fun i hi => h i (List.mem_cons_of_mem _ hi)
    simp only [wellFormedItem, Bool.and_eq_true, Option.isSome_iff_exists]
      at hitem
    obtain ⟨⟨b, hb⟩, k, hk⟩ := hitem
    simp only [processItems, hb, hk]
    have hkey : itemKey item = k := by simp [itemKey, hk]
    have hbucket : itemBucket item = b := by simp [itemBucket, hb]
    cases hparse : parse_metadata pattern k with
    | error e =>
      have hm : entryMatches pattern item = false := by
        simp [entryMatches, hkey, hparse]
      simp [ih hrest, List.filter_cons, hm]
    | ok md =>
      have hm : entryMatches pattern item = true := by
        simp [entryMatches, hkey, hparse]
      have hev : entryEvent pattern so item
          = ({ uri := "s3://" ++ b ++ "/" ++ k, storage_options := so },
             md) := by
        simp [entryEvent, hkey, hbucket, hparse]
      simp [ih hrest, List.filter_cons, hm, hev]

theorem processRecords_of_wellFormed (pattern : Option Pattern) (so : Dict)
    (records : List RawNotification) (h : wellFormedRecords records) :
    processRecords pattern so records
      = (((allEntries records).filter (entryMatches pattern)).map
           (entryEvent pattern so), none) := by
  induction records with
  | nil => rfl
  | cons r rs ih =>
    have hr : ∀ i ∈ r.Records, wellFormedItem i = true :=
      fun i hi => h r (List.mem_cons_self _ _) i hi
    have hrs : wellFormedRecords rs :=
      fun q hq i hi => h q (List.mem_cons_of_mem _ hq) i hi
    simp only [processRecords, processItems_of_wellFormed pattern so _ hr,
      ih hrs]
    simp [allEntries, List.filter_append]

theorem dictGet_dictSet_self (d : Dict) (k v : String) :
    dictGet (dictSet d k v) k = some v := by
  induction d with
  | nil => simp [dictSet, dictGet]
  | cons p d ih =>
    by_cases hpk : p.1 = k
    · simp [dictSet, hpk, dictGet]
    · simp [dictSet, hpk, dictGet, ih]

theorem dictGet_dictSet_ne (d : Dict) (k v k' : String) (h : k ≠ k') :
    dictGet (dictSet d k v) k' = dictGet d k' := by
  induction d with
  | nil => simp [dictSet, dictGet, h]
  | cons p d ih =>
    by_cases hpk : p.1 = k
    · simp [dictSet, hpk, dictGet, h]
    · simp [dictSet, hpk, dictGet, ih]

theorem dictGet_dictUpdate_notMem (d : Dict) (md : Dict) (k : String)
    (h : k ∉ dictKeys md) :
    dictGet (dictUpdate d md) k = dictGet d k := by
  induction md generalizing d with
  | nil => rfl
  | cons p rest ih =>
    simp only [dictKeys, List.map_cons, List.mem_cons] at h
    push_neg at h
    obtain ⟨h1, h2⟩ := h
    have : dictUpdate d (p :: rest) = dictUpdate (dictSet d p.1 p.2) rest :=
      rfl
    rw [this, ih _ (by simpa [dictKeys] using h2),
      dictGet_dictSet_ne _ _ _ _ (fun hc => h1 hc.symm)]

theorem dictGet_dictUpdate_mem (d : Dict) (md : Dict) (k v : String)
    (hnd : (dictKeys md).Nodup) (h : dictGet md k = some v) :
    dictGet (dictUpdate d md) k = some v := by
  induction md generalizing d with
  | nil => simp [dictGet] at h
  | cons p rest ih =>
    simp only [dictKeys, List.map_cons, List.nodup_cons] at hnd
    obtain ⟨hp, hrest⟩ := hnd
    have hstep : dictUpdate d (p :: rest) = dictUpdate (dictSet d p.1 p.2)
        rest := rfl
    by_cases hpk : p.1 = k
    · have hv : v = p.2 := by
        simp [dictGet, hpk] at h
        exact h.symm
      rw [hstep, dictGet_dictUpdate_notMem _ _ _ (by
          simpa [dictKeys, hpk] using hp),
        hpk, dictGet_dictSet_self, hv]
    · have h' : dictGet rest k = some v := by
        cases p with
        | mk pk pv => simpa [dictGet, hpk] using h
      rw [hstep]
      exact ih _ (by simpa [dictKeys] using hrest) h'

theorem dictGet_eq_none_of_notMem (d : Dict) (k : String)
    (h : k ∉ dictKeys d) : dictGet d k = none := by
  induction d with
  | nil => rfl
  | cons p rest ih =>
    simp only [dictKeys, List.map_cons, List.mem_cons] at h
    push_neg at h
    cases p with
    | mk pk pv =>
      have hne : pk ≠ k := fun hc => h.1 hc.symm
      simpa [dictGet, hne] using ih (by simpa [dictKeys] using h.2)

theorem processItems_congr (pattern : Option Pattern) (so : Dict)
    (items1 items2 : List RecordItem)
    (h : List.Forall₂ itemAgrees items1 items2) :
    processItems pattern so items1 = processItems pattern so items2 := by
  induction h with
  | nil => rfl
  | cons hab _ ih =>
    obtain ⟨hbname, hkey⟩ := hab
    simp only [processItems, hbname, hkey, ih]

theorem processRecords_congr (pattern : Option Pattern) (so : Dict)
    (records1 records2 : List RawNotification)
    (h : List.Forall₂
      (fun r1 r2 => List.Forall₂ itemAgrees r1.Records r2.Records)
      records1 records2) :
    processRecords pattern so records1 = processRecords pattern so records2
    := by
  induction h with
  | nil => rfl
  | cons hab _ ih =>
    simp only [processRecords, processItems_congr pattern so _ _ hab, ih]

theorem processItems_sources (pattern : Option Pattern) (so : Dict)
    (items : List RecordItem) :
    ∀ ev ∈ (processItems pattern so items).1, ∃ item ∈ items, ∃ b k,
      item.s3.bucket.name = some b ∧ item.s3.object.key = some k ∧
      ev.1 = { uri := "s3://" ++ b ++ "/" ++ k, storage_options := so } := by
  induction items with
  | nil => intro ev hev; simp [processItems] at hev
  | cons item rest ih =>
    intro ev hev
    cases hb : item.s3.bucket.name with
    | none => simp [processItems, hb] at hev
    | some b =>
      cases hk : item.s3.object.key with
      | none => simp [processItems, hb, hk] at hev
      | some k =>
        cases hp : parse_metadata pattern k with
        | error e =>
          simp only [processItems, hb, hk, hp] at hev
          obtain ⟨item', hmem, hrest⟩ := ih ev hev
          exact ⟨item', List.mem_cons_of_mem _ hmem, hrest⟩
        | ok md =>
          simp only [processItems, hb, hk, hp, List.mem_cons] at hev
          cases hev with
          | inl heq =>
            exact ⟨item, List.mem_cons_self _ _, b, k, hb, hk,
              by rw [heq]⟩
          | inr hmem =>
            obtain ⟨item', hmem', hrest⟩ := ih ev hmem
            exact ⟨item', List.mem_cons_of_mem _ hmem', hrest⟩

theorem processRecords_sources (pattern : Option Pattern) (so : Dict)
    (records : List RawNotification) :
    ∀ ev ∈ (processRecords pattern so records).1, ∃ r ∈ records,
      ∃ item ∈ r.Records, ∃ b k,
      item.s3.bucket.name = some b ∧ item.s3.object.key = some k ∧
      ev.1 = { uri := "s3://" ++ b ++ "/" ++ k, storage_options := so } := by
  induction records with
  | nil => intro ev hev; simp [processRecords] at hev
  | cons r rs ih =>
    intro ev hev
    cases he : (processItems pattern so r.Records).2 with
    | some e =>
      simp only [processRecords, he] at hev
      obtain ⟨item, hmem, hrest⟩ := processItems_sources pattern so _ ev hev
      exact ⟨r, List.mem_cons_self _ _, item, hmem, hrest⟩
    | none =>
      simp only [processRecords, he, List.mem_append] at hev
      cases hev with
      | inl hin =>
        obtain ⟨item, hmem, hrest⟩ :=
          processItems_sources pattern so _ ev hin
        exact ⟨r, List.mem_cons_self _ _, item, hmem, hrest⟩
      | inr hin =>
        obtain ⟨r', hr', hrest⟩ := ih ev hin
        exact ⟨r', List.mem_cons_of_mem _ hr', hrest⟩

/-- C7: two-run noninterference. For any two record streams that agree,
entry for entry, on the bucket name and the object key but differ
arbitrarily in every other field (event type, timestamps, ETags, sizes,
request ids, user agents, ...), and for any two endpoints,
`file_generator` produces identical output sequences: the opaque fields
never influence the output. -/
theorem c7_noninterference_opaque_fields (ep1 ep2 bucket_name : String)
    (pattern : Option Pattern) (storage_options : Option Dict)
    (records1 records2 : List RawNotification)
    (h : List.Forall₂
      (fun r1 r2 => List.Forall₂ itemAgrees r1.Records r2.Records)
      records1 records2) :
    file_generator ep1 bucket_name pattern storage_options records1
      = file_generator ep2 bucket_name pattern storage_options records2 :=
  processRecords_congr pattern (normStorageOptions storage_options) _ _ h

/-- Witness for C7 at two concrete one-entry streams naming the same
bucket and key but differing in all opaque fields. -/
theorem c7_witness :
    file_generator "endpoint-one" "viirs-data" (some p0)
        (some [("profile", "someprofile")])
        [{ Records := [sampleMatchItem] }]
      = file_generator "endpoint-two" "viirs-data" (some p0)
        (some [("profile", "someprofile")])
        [{ Records := [sampleMatchItemVariant] }] :=
  c7_noninterference_opaque_fields "endpoint-one" "endpoint-two"
    "viirs-data" (some p0) (some [("profile", "someprofile")]) _ _
    (List.Forall₂.cons (List.Forall₂.cons ⟨rfl, rfl⟩ List.Forall₂.nil)
      List.Forall₂.nil)

/-- C8: `_record_generator` opens its bucket-notification subscription
with the event filter exactly `["s3:ObjectCreated:*"]` on the watched
bucket, and its `for event in events: yield event` loop yields each
received event unchanged and in order, ending exactly with the
subscription's (finite view of the) sequence. -/
theorem c8_record_generator_subscription (bucket_name : String)
    (subscription : List RawNotification) :
    (record_generator_listen bucket_name).events = ["s3:ObjectCreated:*"]
    ∧ (record_generator_listen bucket_name).bucket = bucket_name
    ∧ record_generator_yield subscription = subscription := by
  refine ⟨rfl, rfl, ?_⟩
  induction subscription with
  | nil => rfl
  | cons e es ih => simp [record_generator_yield, ih]

/-- C9: every location yielded by `file_generator` is the UPath built
from `s3://<bucket>/<key>` of some entry of the consumed stream,
carrying exactly the (normalized) caller-supplied storage options, and
the `endpoint_url` argument never affects the yielded pairs. -/
theorem c9_locations_from_entries (ep ep2 bucket_name : String)
    (pattern : Option Pattern) (storage_options : Option Dict)
    (records : List RawNotification) :
    (∀ ev ∈ (file_generator ep bucket_name pattern storage_options
        records).1, ∃ r ∈ records, ∃ item ∈ r.Records, ∃ b k,
      item.s3.bucket.name = some b ∧ item.s3.object.key = some k ∧
      ev.1 = { uri := "s3://" ++ b ++ "/" ++ k,
               storage_options := normStorageOptions storage_options })
    ∧ file_generator ep bucket_name pattern storage_options records
      = file_generator ep2 bucket_name pattern storage_options records :=
  ⟨processRecords_sources pattern (normStorageOptions storage_options)
    records, rfl⟩

/-- Witness for C9: the endpoint-independence conjunct at a concrete
input, and the location/options of the single yielded event. -/
theorem c9_witness :
    file_generator "endpoint-one" "viirs-data" (some p0)
        (some [("profile", "someprofile")]) [{ Records := [sampleMatchItem] }]
      = file_generator "endpoint-two" "viirs-data" (some p0)
        (some [("profile", "someprofile")]) [{ Records := [sampleMatchItem] }]
    :=
  (c9_locations_from_entries "endpoint-one" "endpoint-two" "viirs-data"
    (some p0) (some [("profile", "someprofile")])
    [{ Records := [sampleMatchItem] }]).2

/-- C10: `file_generator` treats `storage_options=None` as the empty
mapping, and the minio client is constructed with `AWSConfigProvider`
credentials for `storage_options["profile"]` exactly when the key
`"profile"` is present; otherwise with no credentials. -/
theorem c10_storage_options_default_and_credentials
    (ep bucket_name : String) (pattern : Option Pattern)
    (stream : List RawNotification) (so : Dict) :
    file_generator ep bucket_name pattern none stream
      = file_generator ep bucket_name pattern (some []) stream
    ∧ (record_generator_client ep so).credentials
      = (dictGet so "profile").map Credentials.awsConfigProvider
    ∧ (record_generator_client ep so).endpoint = ep := by
  refine ⟨rfl, ?_, rfl⟩
  by_cases hc : "profile" ∈ dictKeys so
  · simp [record_generator_client, hc]
  · have hnone : dictGet so "profile" = none :=
      dictGet_eq_none_of_notMem so "profile" hc
    simp [record_generator_client, hc, hnone]

theorem processItems_firstMalformed (pattern : Option Pattern) (so : Dict)
    (pre : List RecordItem) (bad : RecordItem) (post : List RecordItem)
    (hpre : ∀ i ∈ pre, wellFormedItem i = true)
    (hbad : wellFormedItem bad = false) :
    processItems pattern so (pre ++ bad :: post)
      = ((pre.filter (entryMatches pattern)).map (entryEvent pattern so),
         some StreamError.keyError) := by
  induction pre with
  | nil =>
    simp only [List.nil_append, List.filter_nil, List.map_nil]
    cases hb : bad.s3.bucket.name with
    | none => simp [processItems, hb]
    | some b =>
      cases hk : bad.s3.object.key with
      | none => simp [processItems, hb, hk]
      | some k =>
        exfalso
        simp [wellFormedItem, hb, hk] at hbad
  | cons item rest ih =>
    have hitem := hpre item (List.mem_cons_self _ _)
    have hrest : ∀ i ∈ rest, wellFormedItem i = true :=
      fun i hi => hpre i (List.mem_cons_of_mem _ hi)
    simp only [wellFormedItem, Bool.and_eq_true, Option.isSome_iff_exists]
      at hitem
    obtain ⟨⟨b, hb⟩, k, hk⟩ := hitem
    simp only [List.cons_append, processItems, hb, hk]
    have hkey : itemKey item = k := by simp [itemKey, hk]
    have hbucket : itemBucket item = b := by simp [itemBucket, hb]
    cases hparse : parse_metadata pattern k with
    | error e =>
      have hm : entryMatches pattern item = false := by
        simp [entryMatches, hkey, hparse]
      simp [ih hrest, List.filter_cons, hm]
    | ok md =>
      have hm : entryMatches pattern item = true := by
        simp [entryMatches, hkey, hparse]
      have hev : entryEvent pattern so item
          = ({ uri := "s3://" ++ b ++ "/" ++ k, storage_options := so },
             md) := by
        simp [entryEvent, hkey, hbucket, hparse]
      simp [ih hrest, List.filter_cons, hm, hev]

/-- C1 (amended): over a stream whose entries all carry the required
bucket name and object key, `file_generator` yields exactly the events
of the N pattern-matching entries, in their original relative order
within and across batches — the M well-formed non-matching (NoMatch)
entries are skipped with no reordering or buffering. (As stated, with
non-matching including MalformedRecord entries, the claim is refuted by
`c1_counterexample`: a malformed entry terminates the stream instead of
being skipped.) -/
theorem c1_matching_entries_yielded_in_order (ep bucket_name : String)
    (pattern : Option Pattern) (storage_options : Option Dict)
    (records : List RawNotification) (h : wellFormedRecords records) :
    file_generator ep bucket_name pattern storage_options records
      = (((allEntries records).filter (entryMatches pattern)).map
          (entryEvent pattern (normStorageOptions storage_options)), none)
    ∧ (file_generator ep bucket_name pattern storage_options records).1.length
      = ((allEntries records).filter (entryMatches pattern)).length := by
  have hmain := processRecords_of_wellFormed pattern
    (normStorageOptions storage_options) records h
  have hfg : file_generator ep bucket_name pattern storage_options records
      = (((allEntries records).filter (entryMatches pattern)).map
          (entryEvent pattern (normStorageOptions storage_options)), none) :=
    hmain
  refine ⟨hfg, ?_⟩
  rw [hfg]
  simp

/-- Counterexample to C1 as stated: one batch holding a MalformedRecord
entry (no object key) followed by a matching entry. The claim counts
N = 1 matching entry and M = 1 non-matching entry and predicts exactly
one yielded pair; `file_generator` yields zero pairs because the
malformed entry raises an uncaught `KeyError`. -/
theorem c1_counterexample :
    entryMatches none sampleMatchItem = true
    ∧ wellFormedItem noKeyItem = false
    ∧ (file_generator "ep" "viirs-data" none none
        [{ Records := [noKeyItem, sampleMatchItem] }])
      = ([], some StreamError.keyError)
    ∧ (file_generator "ep" "viirs-data" none none
        [{ Records := [noKeyItem, sampleMatchItem] }]).1.length ≠ 1 := by
  refine ⟨rfl, rfl, rfl, by decide⟩

/-- Witness for C1 (amended) on `wStream` under pattern `p0`:
N = 2 matching entries, M = 1 non-matching entry, 2 pairs yielded. -/
theorem c1_witness :
    wellFormedRecords wStream
    ∧ (file_generator "ep" "viirs-data" (some p0) none wStream
        = (((allEntries wStream).filter (entryMatches (some p0))).map
            (entryEvent (some p0) (normStorageOptions none)), none)
      ∧ (file_generator "ep" "viirs-data" (some p0) none wStream).1.length
        = ((allEntries wStream).filter (entryMatches (some p0))).length)
    ∧ (file_generator "ep" "viirs-data" (some p0) none wStream).1.length = 2
    := ⟨by decide,
        c1_matching_entries_yielded_in_order "ep" "viirs-data" (some p0)
          none wStream (by decide), rfl⟩

/-- C2 (amended): a batch entry missing a required field (bucket name or
object key) raises an uncaught `KeyError` that terminates the stream at
that entry: the matching entries before it are yielded, and neither the
rest of its batch nor any subsequent batch is processed. (The claim as
stated — the entry is skipped and the stream continues — is refuted by
`c2_counterexample`.) -/
theorem c2_malformed_terminates_stream (ep bucket_name : String)
    (pattern : Option Pattern) (storage_options : Option Dict)
    (pre : List RecordItem) (bad : RecordItem) (post : List RecordItem)
    (rest : List RawNotification)
    (hpre : ∀ i ∈ pre, wellFormedItem i = true)
    (hbad : wellFormedItem bad = false) :
    file_generator ep bucket_name pattern storage_options
        ({ Records := pre ++ bad :: post } :: rest)
      = ((pre.filter (entryMatches pattern)).map
          (entryEvent pattern (normStorageOptions storage_options)),
         some StreamError.keyError) := by
  have hbatch := processItems_firstMalformed pattern
    (normStorageOptions storage_options) pre bad post hpre hbad
  show processRecords pattern (normStorageOptions storage_options)
      ({ Records := pre ++ bad :: post } :: rest) = _
  simp [processRecords, hbatch]

/-- Counterexample to C2 as stated: a malformed entry in the first batch
and a matching entry in the following batch. The claim predicts the
second batch's entry is still yielded; `file_generator` yields nothing
and terminates with `KeyError`. -/
theorem c2_counterexample :
    wellFormedItem noKeyItem = false
    ∧ entryMatches none sampleMatchItem = true
    ∧ (file_generator "ep" "viirs-data" none none
        [{ Records := [noKeyItem] }, { Records := [sampleMatchItem] }])
      = ([], some StreamError.keyError)
    ∧ (file_generator "ep" "viirs-data" none none
        [{ Records := [noKeyItem] }, { Records := [sampleMatchItem] }]
        ).1.length ≠ 1 := by
  refine ⟨rfl, rfl, rfl, by decide⟩

/-- Witness for C2 (amended): a matching entry, then a malformed one,
then entries and batches that are never reached. -/
theorem c2_witness :
    wellFormedItem noKeyItem = false
    ∧ file_generator "ep" "viirs-data" (some p0) none
        ({ Records := [sampleMatchItem] ++ noKeyItem :: [sampleMatchItem] }
          :: [{ Records := [sampleMatchItem] }])
      = (([sampleMatchItem].filter (entryMatches (some p0))).map
          (entryEvent (some p0) (normStorageOptions none)),
         some StreamError.keyError) :=
  ⟨rfl, c2_malformed_terminates_stream "ep" "viirs-data" (some p0) none
    [sampleMatchItem] noKeyItem [sampleMatchItem]
    [{ Records := [sampleMatchItem] }] (by decide) rfl⟩

/-- C3: with an absent pattern, metadata extraction accepts every object
key with an empty extracted mapping, and `file_generator` yields one
event with empty metadata per (well-formed, non-empty-key) entry. -/
theorem c3_absent_pattern_accepts_all (ep bucket_name : String)
    (storage_options : Option Dict) (records : List RawNotification)
    (h : wellFormedRecords records)
    (_hk : ∀ r ∈ records, ∀ i ∈ r.Records, itemKey i ≠ "") :
    (∀ key : String, parse_metadata none key = Except.ok [])
    ∧ file_generator ep bucket_name none storage_options records
      = ((allEntries records).map (fun item =>
          ({ uri := "s3://" ++ itemBucket item ++ "/" ++ itemKey item,
             storage_options := normStorageOptions storage_options },
           ([] : Dict))), none) := by
  refine ⟨fun key => rfl, ?_⟩
  have hmain := processRecords_of_wellFormed none
    (normStorageOptions storage_options) records h
  have hfilter : (allEntries records).filter (entryMatches none)
      = allEntries records :=
    List.filter_eq_self.mpr (fun a _ => by simp [entryMatches, parse_metadata])
  show processRecords none (normStorageOptions storage_options) records = _
  rw [hmain, hfilter]
  exact rfl

/-- Witness for C3 on `wStream` (every key present and non-empty). -/
theorem c3_witness :
    wellFormedRecords wStream
    ∧ ((∀ key : String, parse_metadata none key = Except.ok [])
      ∧ file_generator "ep" "viirs-data" none none wStream
        = ((allEntries wStream).map (fun item =>
            ({ uri := "s3://" ++ itemBucket item ++ "/" ++ itemKey item,
               storage_options := normStorageOptions none },
             ([] : Dict))), none))
    ∧ (file_generator "ep" "viirs-data" none none wStream).1.length = 3 :=
  ⟨by decide,
   c3_absent_pattern_accepts_all "ep" "viirs-data" none wStream (by decide)
     (by decide), rfl⟩

/-- C4: a well-formed entry whose key does not match the pattern is
skipped and only it: deleting it from the stream leaves the output of
`file_generator` unchanged, so the NoMatch neither surfaces as an error
nor aborts the stream (the surrounding entries and batches hold all
required fields). -/
theorem c4_nomatch_skipped_only (ep bucket_name : String)
    (pattern : Option Pattern) (storage_options : Option Dict)
    (batches1 : List RawNotification) (items1 items2 : List RecordItem)
    (nm : RecordItem) (batches2 : List RawNotification)
    (h : wellFormedRecords
      (batches1 ++ { Records := items1 ++ nm :: items2 } :: batches2))
    (hmatch : entryMatches pattern nm = false) :
    file_generator ep bucket_name pattern storage_options
        (batches1 ++ { Records := items1 ++ nm :: items2 } :: batches2)
      = file_generator ep bucket_name pattern storage_options
        (batches1 ++ { Records := items1 ++ items2 } :: batches2) := by
  have h2 : wellFormedRecords
      (batches1 ++ { Records := items1 ++ items2 } :: batches2) := by
    intro r hr i hi
    rcases List.mem_append.mp hr with h1 | h1
    · exact h r (List.mem_append.mpr (Or.inl h1)) i hi
    · rcases List.mem_cons.mp h1 with hEq | hmem
      · subst hEq
        rcases List.mem_append.mp hi with hi1 | hi2
        · exact h _ (List.mem_append.mpr
            (Or.inr (List.mem_cons_self _ _))) i
            (List.mem_append.mpr (Or.inl hi1))
        · exact h _ (List.mem_append.mpr
            (Or.inr (List.mem_cons_self _ _))) i
            (List.mem_append.mpr (Or.inr (List.mem_cons_of_mem _ hi2)))
      · exact h r (List.mem_append.mpr
          (Or.inr (List.mem_cons_of_mem _ hmem))) i hi
  have hL := processRecords_of_wellFormed pattern
    (normStorageOptions storage_options) _ h
  have hR := processRecords_of_wellFormed pattern
    (normStorageOptions storage_options) _ h2
  show processRecords pattern (normStorageOptions storage_options) _
      = processRecords pattern (normStorageOptions storage_options) _
  rw [hL, hR]
  have hent : (allEntries
        (batches1 ++ { Records := items1 ++ nm :: items2 } :: batches2)
        ).filter (entryMatches pattern)
      = (allEntries
        (batches1 ++ { Records := items1 ++ items2 } :: batches2)
        ).filter (entryMatches pattern) := by
    simp [allEntries, List.filter_append, List.filter_cons, hmatch]
  rw [hent]

/-- Witness for C4: removing the single non-matching entry from a
two-batch stream leaves the output unchanged. -/
theorem c4_witness :
    entryMatches (some p0) sampleNoMatchItem = false
    ∧ file_generator "ep" "viirs-data" (some p0) none
        ([] ++ { Records := [sampleMatchItem] ++ sampleNoMatchItem ::
          [sampleMatchItem] } :: [{ Records := [sampleMatchItem] }])
      = file_generator "ep" "viirs-data" (some p0) none
        ([] ++ { Records := [sampleMatchItem] ++ [sampleMatchItem] }
          :: [{ Records := [sampleMatchItem] }]) :=
  ⟨rfl, c4_nomatch_skipped_only "ep" "viirs-data" (some p0) none []
    [sampleMatchItem] [sampleMatchItem] sampleNoMatchItem
    [{ Records := [sampleMatchItem] }] (by decide) rfl⟩

/-- C5: in the outbound message data, when a static message field and an
extracted metadata field share a name that is not a resolved-address
reserved key, the extracted metadata value wins over the static value;
the resolved-address fields `"url"` and `"fs"`, populated last, take
precedence over both. -/
theorem c5_merge_precedence (staticData md : Dict) (loc : ObjectLocation)
    (k vs vm : String) (hk1 : k ≠ "url") (hk2 : k ≠ "fs")
    (hnd : (dictKeys md).Nodup) (_hs : dictGet staticData k = some vs)
    (hm : dictGet md k = some vm) :
    dictGet (buildMessageData staticData md loc) k = some vm
    ∧ dictGet (buildMessageData staticData md loc) "url" = some loc.uri
    ∧ dictGet (buildMessageData staticData md loc) "fs"
      = some (fsDescriptor loc) := by
  unfold buildMessageData
  refine ⟨?_, ?_, ?_⟩
  · rw [dictGet_dictSet_ne _ _ _ _ (Ne.symm hk2),
      dictGet_dictSet_ne _ _ _ _ (Ne.symm hk1)]
    exact dictGet_dictUpdate_mem _ _ _ _ hnd hm
  · rw [dictGet_dictSet_ne _ _ _ _ (by decide), dictGet_dictSet_self]
  · rw [dictGet_dictSet_self]

/-- Witness for C5: static field `platform` collides with an extracted
`platform` field; the extracted value wins and the resolved fields are
present. -/
theorem c5_witness :
    dictGet (buildMessageData [("sensor", "viirs"), ("platform", "static")]
        [("platform", "npp")]
        { uri := "s3://viirs-data/sdr/a.h5", storage_options := [] })
      "platform" = some "npp"
    ∧ dictGet (buildMessageData [("sensor", "viirs"), ("platform", "static")]
        [("platform", "npp")]
        { uri := "s3://viirs-data/sdr/a.h5", storage_options := [] })
      "url" = some "s3://viirs-data/sdr/a.h5"
    ∧ dictGet (buildMessageData [("sensor", "viirs"), ("platform", "static")]
        [("platform", "npp")]
        { uri := "s3://viirs-data/sdr/a.h5", storage_options := [] })
      "fs" = some (fsDescriptor
        { uri := "s3://viirs-data/sdr/a.h5", storage_options := [] }) :=
  c5_merge_precedence [("sensor", "viirs"), ("platform", "static")]
    [("platform", "npp")]
    { uri := "s3://viirs-data/sdr/a.h5", storage_options := [] }
    "platform" "static" "npp" (by decide) (by decide) (by decide) rfl rfl

/-- C6: end-to-end on the reference fixture (14 batches, one matching
entry each, no pattern): `publish` emits exactly 14 messages, one per
input and in arrival order; the message for the `viirs-data` /
`sdr/SVM13_...` entry has resolved address
`s3://viirs-data/sdr/SVM13_..._cspp_dev.h5`, and every emitted message
retains the static `sensor` field and subject/type from the message
configuration. -/
theorem c6_end_to_end_fixture :
    (file_publisher "someendpoint" "viirs-data" none none
      fixtureMessageConfig fixtureRecords).2 = none
    ∧ (file_publisher "someendpoint" "viirs-data" none none
      fixtureMessageConfig fixtureRecords).1.length = 14
    ∧ (file_publisher "someendpoint" "viirs-data" none none
        fixtureMessageConfig fixtureRecords).1.map
        (fun m => dictGet m.data "url")
      = fixtureKeys.map (fun k => some ("s3://viirs-data/" ++ k))
    ∧ ((file_publisher "someendpoint" "viirs-data" none none
        fixtureMessageConfig fixtureRecords).1.map
        (fun m => dictGet m.data "url")).getD 0 none
      = some ("s3://viirs-data/sdr/SVM13_npp_d20240408_t1006227_e1007469_b64498_c20240408102334392250_cspp_dev.h5")
    ∧ (file_publisher "someendpoint" "viirs-data" none none
        fixtureMessageConfig fixtureRecords).1.map
        (fun m => dictGet m.data "sensor")
      = List.replicate 14 (some "viirs")
    ∧ (file_publisher "someendpoint" "viirs-data" none none
        fixtureMessageConfig fixtureRecords).1.map OutboundMessage.subject
      = List.replicate 14 "/segment/viirs/l1b/"
    ∧ (file_publisher "someendpoint" "viirs-data" none none
        fixtureMessageConfig fixtureRecords).1.map OutboundMessage.atype
      = List.replicate 14 "file" := by
  refine ⟨rfl, rfl, rfl, rfl, rfl, rfl, rfl⟩
